import Mathlib

/-!
# Verification of rocket_csrf_token (src/src/lib.rs)

A shallow embedding of the CSRF-protection middleware in `src/src/lib.rs`:

* `b64encodeList` / `b64decodeList` model the `base64` crate's
  `general_purpose::STANDARD` engine (padded standard alphabet, canonical
  decoding) applied to byte lists; bytes are `Nat`s below 256.
* `BcryptModel` abstracts the external `bcrypt` crate primitives
  `hash(password, cost)` and `verify(password, hash)`; theorems take the
  model (and, where needed, its contract) as parameters.
* `CsrfConfig`, `CsrfToken`, the `RequestCsrf` session-store functions, the
  `Fairing::on_request` middleware step, the `CsrfToken::from_request`
  request guard and the `CsrfToken` header-verification fairing are
  translated into pure Lean functions; the per-request cookie jar is a map
  from cookie name to stored value, randomness is an explicit byte stream,
  and the clock is an explicit `now` parameter.
-/

namespace RocketCsrf

/-! ## Base64 standard codec (model of base64::engine::general_purpose::STANDARD) -/

/-- The standard base64 alphabet: index `n < 64` to its character. -/
def encodeChar (n : Nat) : Char :=
  if n < 26 then Char.ofNat (n + 65)
  else if n < 52 then Char.ofNat (n + 71)
  else if n < 62 then Char.ofNat (n - 4)
  else if n = 62 then '+'
  else '/'

/-- Inverse of `encodeChar` on the standard alphabet; `none` off it. -/
def decodeChar (c : Char) : Option Nat :=
  let n := c.toNat
  if 65 ≤ n ∧ n ≤ 90 then some (n - 65)
  else if 97 ≤ n ∧ n ≤ 122 then some (n - 71)
  else if 48 ≤ n ∧ n ≤ 57 then some (n + 4)
  else if n = 43 then some 62
  else if n = 47 then some 63
  else none

/-- Encode a byte list in standard padded base64 (3 bytes to 4 chars,
`=`-padded tail), as the `STANDARD` engine's `encode` does. -/
def b64encodeList : List Nat → List Char
  | [] => []
  | [b0] =>
    let n := b0 * 16
    [encodeChar (n / 64), encodeChar (n % 64), '=', '=']
  | [b0, b1] =>
    let n := (b0 * 256 + b1) * 4
    [encodeChar (n / 4096), encodeChar (n / 64 % 64), encodeChar (n % 64), '=']
  | b0 :: b1 :: b2 :: rest =>
    let n := b0 * 65536 + b1 * 256 + b2
    encodeChar (n / 262144) :: encodeChar (n / 4096 % 64) :: encodeChar (n / 64 % 64)
      :: encodeChar (n % 64) :: b64encodeList rest

/-- Decode standard padded base64 canonically (padding only at the end,
trailing bits required to be zero), as the `STANDARD` engine's `decode` does;
`none` on malformed input. -/
def b64decodeList : List Char → Option (List Nat)
  | [] => some []
  | c0 :: c1 :: c2 :: c3 :: rest =>
    match decodeChar c0, decodeChar c1 with
    | some v0, some v1 =>
      if c2 = '=' then
        if c3 = '=' ∧ rest = [] then
          if v1 % 16 = 0 then some [v0 * 4 + v1 / 16] else none
        else none
      else
        match decodeChar c2 with
        | some v2 =>
          if c3 = '=' then
            if rest = [] then
              if v2 % 4 = 0 then some [v0 * 4 + v1 / 16, v1 % 16 * 16 + v2 / 4] else none
            else none
          else
            match decodeChar c3 with
            | some v3 =>
              match b64decodeList rest with
              | some tail =>
                  some ((v0 * 4 + v1 / 16) :: (v1 % 16 * 16 + v2 / 4) :: (v2 % 4 * 64 + v3) :: tail)
              | none => none
            | none => none
        | none => none
    | _, _ => none
  | _ => none

/-- String-level encode, as the crate produces a `String` cookie value. -/
def b64encodeStr (bytes : List Nat) : String :=
  String.mk (b64encodeList bytes)

/-- String-level decode of a stored cookie value. -/
def b64decodeStr (s : String) : Option (List Nat) :=
  b64decodeList s.toList

example : b64encodeStr [77, 97, 110] = "TWFu" := by decide
example : b64encodeStr [77, 97] = "TWE=" := by decide
example : b64encodeStr [77] = "TQ==" := by decide
example : b64decodeStr "TWFu" = some [77, 97, 110] := by decide
example : b64decodeStr "TQ==" = some [77] := by decide
example : b64decodeStr "TQ=" = none := by decide
example : b64decodeStr "TR==" = none := by decide

/-! ## The bcrypt primitive (external crate), abstracted -/

/-- Errors of the external `bcrypt` crate (`BcryptError`); the variants are
a simplified rendering, the code only ever propagates or discards them. -/
inductive BcryptError where
  | costNotAllowed
  | invalidHash
  | rand
  deriving DecidableEq, Repr

instance {ε α : Type} [DecidableEq ε] [DecidableEq α] : DecidableEq (Except ε α) :=
  fun a b =>
  match a, b with
  | .ok x, .ok y =>
    if h : x = y then .isTrue (by rw [h]) else .isFalse (by intro hc; cases hc; exact h rfl)
  | .ok _, .error _ => .isFalse (by intro hc; cases hc)
  | .error _, .ok _ => .isFalse (by intro hc; cases hc)
  | .error x, .error y =>
    if h : x = y then .isTrue (by rw [h]) else .isFalse (by intro hc; cases hc; exact h rfl)

/-- A model of the external `bcrypt` crate: `hash(password, cost)` and
`verify(password, hash)`.  Theorems are parametric in the model; where a
claim needs the bcrypt contract (verification succeeds on a freshly minted
hash) it is taken as an explicit hypothesis. -/
structure BcryptModel where
  hash : String → Nat → Except BcryptError String
  verify : String → String → Except BcryptError Bool

/-- `Result::unwrap_or` for the bcrypt verify result. -/
def unwrapOr (r : Except BcryptError Bool) (dflt : Bool) : Bool :=
  match r with
  | .ok b => b
  | .error _ => dflt

/-! ## CsrfConfig -/

/-- `const BCRYPT_COST: u32 = 8;` -/
def BCRYPT_COST : Nat := 8

/-- `const HEADER_NAME: &str = "X-CSRF-Token";` -/
def HEADER_NAME : String := "X-CSRF-Token"

/-- `CsrfConfig { lifespan, cookie_name, cookie_len }`; the `rocket::time`
`Duration` is modelled as a number of seconds. -/
structure CsrfConfig where
  lifespan : Option Int
  cookie_name : String
  cookie_len : Nat
  deriving DecidableEq, Repr

/-- `CsrfConfig::default()`: lifespan one day, cookie name `csrf_token`,
32-byte secret. -/
def CsrfConfig.default : CsrfConfig :=
  { lifespan := some 86400, cookie_name := "csrf_token", cookie_len := 32 }

/-- `CsrfConfig::with_lifetime`. -/
def CsrfConfig.with_lifetime (c : CsrfConfig) (time : Option Int) : CsrfConfig :=
  { c with lifespan := time }

/-- `CsrfConfig::with_cookie_name`. -/
def CsrfConfig.with_cookie_name (c : CsrfConfig) (name : String) : CsrfConfig :=
  { c with cookie_name := name }

/-- `CsrfConfig::with_cookie_len`. -/
def CsrfConfig.with_cookie_len (c : CsrfConfig) (length : Nat) : CsrfConfig :=
  { c with cookie_len := length }

/-! ## CsrfToken and verification -/

/-- `pub struct CsrfToken(String);` -/
structure CsrfToken where
  token : String
  deriving DecidableEq, Repr

/-- `pub struct VerificationFailure;` -/
structure VerificationFailure where
  deriving DecidableEq, Repr

/-- `CsrfToken::authenticity_token`: `hash(&self.0, BCRYPT_COST)`, the error
propagated to the caller. -/
def CsrfToken.authenticity_token (B : BcryptModel) (t : CsrfToken) :
    Except BcryptError String :=
  match B.hash t.token BCRYPT_COST with
  | .ok token => .ok token
  | .error err => .error err

/-- `CsrfToken::verify`: `verify(&self.0, form_authenticity_token).unwrap_or(false)`;
a primitive error counts as a non-match. -/
def CsrfToken.verify (B : BcryptModel) (t : CsrfToken)
    (form_authenticity_token : String) : Except VerificationFailure Unit :=
  if unwrapOr (B.verify t.token form_authenticity_token) false then
    .ok ()
  else
    .error {}

/-! ## Session-secret store (trait RequestCsrf) -/

/-- The per-request private cookie jar, abstracted as what
`request.cookies().get_private(name)` returns for each name. -/
def CookieJar : Type := String → Option String

/-- `RequestCsrf::csrf_token_from_session`: read the private cookie named
`config.cookie_name` and base64-decode its value. -/
def csrf_token_from_session (config : CsrfConfig) (jar : CookieJar) :
    Option (List Nat) :=
  match jar config.cookie_name with
  | some value =>
    match b64decodeStr value with
    | some decoded => some decoded
    | none => none
  | none => none

/-- `RequestCsrf::valid_csrf_token_from_session`: keep the decoded secret
only when `raw.len() >= config.cookie_len`. -/
def valid_csrf_token_from_session (config : CsrfConfig) (jar : CookieJar) :
    Option (List Nat) :=
  match csrf_token_from_session config jar with
  | some raw => if config.cookie_len ≤ raw.length then some raw else none
  | none => none

/-! ## Fairing::on_request (the CSRF middleware step) -/

/-- A cookie as handed to `request.cookies().add_private`: the fields the
middleware sets on `Cookie::build((name, value)).path("/")`, with
`expires` as an instant in seconds (`None` = session cookie). -/
structure CookieOut where
  name : String
  value : String
  path : String
  expires : Option Int
  deriving DecidableEq, Repr

/-- The observable outcome of one `Fairing::on_request` call: the private
cookies added to the jar and the log lines emitted.  The fairing hook
returns `()` in Rocket, so there is no channel to fail the request. -/
structure FairingStep where
  cookiesAdded : List CookieOut
  logs : List String
  deriving DecidableEq, Repr

/-- `Fairing::on_request`: look up the managed `CsrfConfig` (modelled as an
`Option`), return early when a valid session secret exists, otherwise mint
`config.cookie_len` random bytes (`rng` is the byte stream sampled by
`rand::thread_rng().sample_iter(Standard)`, each sample a `u8`), base64
encode them, and add a private cookie at path `/`, expiring at
`now + lifespan` when a lifespan is set. -/
def fairing_on_request (configState : Option CsrfConfig) (jar : CookieJar)
    (rng : Nat → Nat) (now : Int) : FairingStep :=
  match configState with
  | none => { cookiesAdded := [], logs := ["CSRF config is missing"] }
  | some config =>
    if (valid_csrf_token_from_session config jar).isSome then
      { cookiesAdded := [], logs := [] }
    else
      let values : List Nat := (List.range config.cookie_len).map (fun i => rng i % 256)
      let encoded := b64encodeStr values
      let expires : Option Int :=
        match config.lifespan with
        | some duration => some (now + duration)
        | none => none
      let cookie : CookieOut :=
        { name := config.cookie_name, value := encoded, path := "/", expires := expires }
      { cookiesAdded := [cookie], logs := ["CSRF cookie added successfully."] }

/-! ## CsrfToken::from_request (the request guard) -/

/-- `Outcome<CsrfToken, (Status, ())>` as the guard produces it. -/
inductive GuardOutcome where
  | success (token : CsrfToken)
  | error (status : Nat)
  | forward
  deriving DecidableEq, Repr

/-- `Status::Forbidden`. -/
def STATUS_FORBIDDEN : Nat := 403

/-- `CsrfToken::from_request`: the managed-state lookup is `.unwrap()`ed, so
an absent `CsrfConfig` panics — modelled as the outer `none`.  With a config
present, a valid session secret is re-encoded and wrapped in a successful
`CsrfToken`; otherwise the guard fails with `Status::Forbidden`. -/
def from_request (configState : Option CsrfConfig) (jar : CookieJar) :
    Option GuardOutcome :=
  match configState with
  | none => none
  | some config =>
    match valid_csrf_token_from_session config jar with
    | some token => some (.success { token := b64encodeStr token })
    | none => some (.error STATUS_FORBIDDEN)

/-! ## RocketFairing for CsrfToken (header-verification interceptor) -/

/-- The observable outcome of one `CsrfToken::on_request` call: the request's
local cache of a `CsrfToken` after the call, the log lines, and the response
status the fairing set (the code never sets one; the `TODO` comments mark
where a `Forbidden` would go). -/
structure HeaderStep where
  cached : Option CsrfToken
  logs : List String
  statusSet : Option Nat
  deriving DecidableEq, Repr

/-- `<CsrfToken as RocketFairing>::on_request`: read the `X-CSRF-Token`
header, and with a config present verify the header value against the
fairing's own stored token `self.0` via `CsrfToken::verify`; on success
`request.local_cache` installs `CsrfToken(header)` unless a token is already
cached.  Every failure path only logs. -/
def csrfToken_fairing_on_request (B : BcryptModel) (selfToken : CsrfToken)
    (header : Option String) (configState : Option CsrfConfig)
    (cache : Option CsrfToken) : HeaderStep :=
  match configState with
  | some _ =>
    match header with
    | some h =>
      match selfToken.verify B h with
      | .ok _ =>
        { cached := some (cache.getD { token := h }),
          logs := ["CsrfToken is successfully created"], statusSet := none }
      | .error _ =>
        { cached := cache, logs := ["CSRF token verification failed!"], statusSet := none }
    | none =>
      { cached := cache, logs := ["Request lacks X-CSRF-Token"], statusSet := none }
  | none =>
    { cached := cache, logs := ["CSRF config is missing"], statusSet := none }

/-! ## Concrete bcrypt models (for witnesses and counterexamples) -/

/-- A toy instance of the bcrypt interface: the "hash" of `pw` is the string
`h:pw` and verification string-compares against that.  It satisfies the
bcrypt contract and keeps witness statements decidable. -/
def toyBcrypt : BcryptModel :=
  { hash := fun pw _ => .ok ("h:" ++ pw),
    verify := fun pw h => .ok (h == "h:" ++ pw) }

/-- A bcrypt instance whose verification primitive always errors, to witness
the fail-closed behaviour. -/
def failingBcrypt : BcryptModel :=
  { hash := fun _ _ => .error .costNotAllowed,
    verify := fun _ _ => .error .invalidHash }

example : (CsrfToken.mk "s").verify toyBcrypt "h:s" = .ok () := by decide
example : (CsrfToken.mk "s").verify toyBcrypt "h:t" = .error {} := by decide
example : (CsrfToken.mk "s").verify failingBcrypt "h:s" = .error {} := by decide

/-! ## Concrete requests (for witnesses and counterexamples) -/

/-- A jar holding exactly one private cookie. -/
def singletonJar (name value : String) : CookieJar :=
  fun n => if n = name then some value else none

/-- An empty private cookie jar. -/
def emptyJar : CookieJar := fun _ => none

/-- A small concrete configuration: no lifespan, default cookie name,
one-byte secret. -/
def cfg1 : CsrfConfig :=
  { lifespan := none, cookie_name := "csrf_token", cookie_len := 1 }

/-- A jar carrying the valid one-byte session secret `[0]` for `cfg1`
(its base64 encoding is `AA==`). -/
def jar1 : CookieJar := singletonJar "csrf_token" "AA=="

example : valid_csrf_token_from_session cfg1 jar1 = some [0] := by decide
example : valid_csrf_token_from_session cfg1 emptyJar = none := by decide

/-! ## Base64 roundtrip -/

theorem decodeChar_encodeChar {n : Nat} (h : n < 64) :
    decodeChar (encodeChar n) = some n :=
  (by decide : ∀ m < 64, decodeChar (encodeChar m) = some m) n h

theorem encodeChar_ne_pad {n : Nat} (h : n < 64) : encodeChar n ≠ '=' :=
  (by decide : ∀ m < 64, encodeChar m ≠ '=') n h

/-- Canonical standard-base64 decoding inverts encoding on byte lists. -/
theorem b64decode_encode (l : List Nat) (h : ∀ b ∈ l, b < 256) :
    b64decodeList (b64encodeList l) = some l := by
  induction l using b64encodeList.induct with
  | case1 => rfl
  | case2 b0 =>
    have hb0 : b0 < 256 := h b0 (by simp)
    have d0 := decodeChar_encodeChar (show b0 * 16 / 64 < 64 by omega)
    have d1 := decodeChar_encodeChar (show b0 * 16 % 64 < 64 by omega)
    have hc : b0 * 16 % 64 % 16 = 0 := by omega
    simp only [b64encodeList, b64decodeList, d0, d1, hc, and_self, reduceIte, if_true]
    have e0 : b0 * 16 / 64 * 4 + b0 * 16 % 64 / 16 = b0 := by omega
    rw [e0]
  | case3 b0 b1 =>
    have hb0 : b0 < 256 := h b0 (by simp)
    have hb1 : b1 < 256 := h b1 (by simp)
    have d0 := decodeChar_encodeChar (show (b0 * 256 + b1) * 4 / 4096 < 64 by omega)
    have d1 := decodeChar_encodeChar (show (b0 * 256 + b1) * 4 / 64 % 64 < 64 by omega)
    have d2 := decodeChar_encodeChar (show (b0 * 256 + b1) * 4 % 64 < 64 by omega)
    have hne2 := encodeChar_ne_pad (show (b0 * 256 + b1) * 4 % 64 < 64 by omega)
    have hc : (b0 * 256 + b1) * 4 % 64 % 4 = 0 := by omega
    simp only [b64encodeList, b64decodeList, d0, d1, d2, hne2, hc, and_self, reduceIte,
      if_true, if_false]
    have e0 : (b0 * 256 + b1) * 4 / 4096 * 4 + (b0 * 256 + b1) * 4 / 64 % 64 / 16 = b0 := by
      omega
    have e1 : (b0 * 256 + b1) * 4 / 64 % 64 % 16 * 16 + (b0 * 256 + b1) * 4 % 64 / 4 = b1 := by
      omega
    rw [e0, e1]
  | case4 b0 b1 b2 rest ih =>
    have hb0 : b0 < 256 := h b0 (by simp)
    have hb1 : b1 < 256 := h b1 (by simp)
    have hb2 : b2 < 256 := h b2 (by simp)
    have hrest : ∀ b ∈ rest, b < 256 := fun b hb => h b (by simp [hb])
    have d0 := decodeChar_encodeChar
      (show (b0 * 65536 + b1 * 256 + b2) / 262144 < 64 by omega)
    have d1 := decodeChar_encodeChar
      (show (b0 * 65536 + b1 * 256 + b2) / 4096 % 64 < 64 by omega)
    have d2 := decodeChar_encodeChar
      (show (b0 * 65536 + b1 * 256 + b2) / 64 % 64 < 64 by omega)
    have d3 := decodeChar_encodeChar (show (b0 * 65536 + b1 * 256 + b2) % 64 < 64 by omega)
    have hne2 := encodeChar_ne_pad (show (b0 * 65536 + b1 * 256 + b2) / 64 % 64 < 64 by omega)
    have hne3 := encodeChar_ne_pad (show (b0 * 65536 + b1 * 256 + b2) % 64 < 64 by omega)
    simp only [b64encodeList, b64decodeList, d0, d1, d2, d3, hne2, hne3, ih hrest,
      reduceIte, if_true, if_false, false_and]
    have e0 : (b0 * 65536 + b1 * 256 + b2) / 262144 * 4
        + (b0 * 65536 + b1 * 256 + b2) / 4096 % 64 / 16 = b0 := by omega
    have e1 : (b0 * 65536 + b1 * 256 + b2) / 4096 % 64 % 16 * 16
        + (b0 * 65536 + b1 * 256 + b2) / 64 % 64 / 4 = b1 := by omega
    have e2 : (b0 * 65536 + b1 * 256 + b2) / 64 % 64 % 4 * 64
        + (b0 * 65536 + b1 * 256 + b2) % 64 = b2 := by omega
    rw [e0, e1, e2]

/-- String-level roundtrip, as stored in and read back from the cookie. -/
theorem b64decodeStr_encodeStr (l : List Nat) (h : ∀ b ∈ l, b < 256) :
    b64decodeStr (b64encodeStr l) = some l := by
  simpa [b64encodeStr, b64decodeStr] using b64decode_encode l h

/-- Encoding-then-decoding preserves the byte count. -/
theorem b64_roundtrip_length (l : List Nat) (h : ∀ b ∈ l, b < 256) :
    ∃ raw, b64decodeStr (b64encodeStr l) = some raw ∧ raw.length = l.length :=
  ⟨l, b64decodeStr_encodeStr l h, rfl⟩

/-! ## Helper lemmas about the embedded operations -/

theorem csrf_token_from_session_eq_bind (config : CsrfConfig) (jar : CookieJar) :
    csrf_token_from_session config jar = (jar config.cookie_name).bind b64decodeStr := by
  unfold csrf_token_from_session
  cases jar config.cookie_name with
  | none => rfl
  | some v => cases hd : b64decodeStr v <;> simp [hd]

theorem valid_csrf_token_eq_bind (config : CsrfConfig) (jar : CookieJar) :
    valid_csrf_token_from_session config jar =
      (csrf_token_from_session config jar).bind
        (fun raw => if config.cookie_len ≤ raw.length then some raw else none) := by
  unfold valid_csrf_token_from_session
  cases csrf_token_from_session config jar <;> rfl

theorem unwrapOr_false_eq_true (r : Except BcryptError Bool) :
    unwrapOr r false = true ↔ r = .ok true := by
  cases r with
  | ok b => cases b <;> simp [unwrapOr]
  | error e => simp [unwrapOr]

theorem authenticity_token_ok (B : BcryptModel) (t : CsrfToken) (s : String)
    (h : t.authenticity_token B = .ok s) : B.hash t.token BCRYPT_COST = .ok s := by
  unfold CsrfToken.authenticity_token at h
  cases hc : B.hash t.token BCRYPT_COST with
  | ok v => rw [hc] at h; cases h; rfl
  | error e => rw [hc] at h; cases h

theorem verify_eq_ok_iff (B : BcryptModel) (t : CsrfToken) (u : String) :
    t.verify B u = .ok () ↔ B.verify t.token u = .ok true := by
  unfold CsrfToken.verify
  rcases hv : unwrapOr (B.verify t.token u) false with _ | _
  · rw [if_neg (by simp [hv])]
    constructor
    · intro hc; cases hc
    · intro hc
      rw [← unwrapOr_false_eq_true] at hc
      rw [hv] at hc; cases hc
  · rw [if_pos (by simp [hv])]
    simp [← unwrapOr_false_eq_true, hv]

theorem verify_not_ok (B : BcryptModel) (t : CsrfToken) (u : String)
    (h : B.verify t.token u ≠ .ok true) : t.verify B u = .error {} := by
  unfold CsrfToken.verify
  rw [if_neg]
  intro hc
  exact h ((unwrapOr_false_eq_true _).mp hc)

/-! ## Claim C1 -/

/-- C1: for a session secret `s` held in a `CsrfToken`, when
`authenticity_token` returns `Ok t` (a bcrypt hash of `s`), `verify` accepts
`t`; and a string `u` that the bcrypt primitive does not validate as a hash
of `s` is rejected with a `VerificationFailure`.  The bcrypt contract (a
freshly minted hash verifies against its password) is the hypothesis
`hcontract`. -/
theorem mint_then_verify (B : BcryptModel) (s t u : String)
    (hcontract : B.hash s BCRYPT_COST = .ok t → B.verify s t = .ok true)
    (hmint : (CsrfToken.mk s).authenticity_token B = .ok t)
    (hnot : B.verify s u ≠ .ok true) :
    (CsrfToken.mk s).verify B t = .ok () ∧ (CsrfToken.mk s).verify B u = .error {} := by
  constructor
  · exact (verify_eq_ok_iff B (CsrfToken.mk s) t).mpr
      (hcontract (authenticity_token_ok B (CsrfToken.mk s) t hmint))
  · exact verify_not_ok B (CsrfToken.mk s) u hnot

/-- C1 witness: in the toy bcrypt model, `h:secret` (the minted token for
secret `secret`) verifies and the unrelated string `other` is rejected. -/
theorem mint_then_verify_witness :
    (CsrfToken.mk "secret").verify toyBcrypt "h:secret" = .ok () ∧
    (CsrfToken.mk "secret").verify toyBcrypt "other" = .error {} :=
  mint_then_verify toyBcrypt "secret" "h:secret" "other"
    (fun _ => by decide) (by decide) (by decide)

/-! ## Claim C6 -/

/-- C6: `verify` succeeds exactly when the bcrypt primitive returns `Ok(true)`;
a primitive error is collapsed by `unwrap_or(false)` into a
`VerificationFailure` (fail closed) and never reaches the caller, while
`authenticity_token` propagates the primitive's `BcryptError` unchanged. -/
theorem verify_fail_closed (B : BcryptModel) (t : CsrfToken) (u : String) :
    (t.verify B u = .ok () ↔ B.verify t.token u = .ok true) ∧
    (∀ e, B.verify t.token u = .error e → t.verify B u = .error {}) ∧
    (∀ e, B.hash t.token BCRYPT_COST = .error e → t.authenticity_token B = .error e) := by
  refine ⟨verify_eq_ok_iff B t u, fun e he => ?_, fun e he => ?_⟩
  · exact verify_not_ok B t u (by rw [he]; intro hc; cases hc)
  · unfold CsrfToken.authenticity_token
    rw [he]

/-- C6 witness: with a bcrypt model whose primitives error, `verify` fails
closed with a `VerificationFailure` and `authenticity_token` surfaces the
primitive's error. -/
theorem verify_fail_closed_witness :
    (CsrfToken.mk "s").verify failingBcrypt "u" = .error {} ∧
    (CsrfToken.mk "s").authenticity_token failingBcrypt = .error .costNotAllowed :=
  ⟨(verify_fail_closed failingBcrypt (CsrfToken.mk "s") "u").2.1 .invalidHash (by decide),
   (verify_fail_closed failingBcrypt (CsrfToken.mk "s") "u").2.2 .costNotAllowed (by decide)⟩

/-! ## Claim C2 -/

/-- C2: the stored cookie is accepted as the session secret exactly when it
is present, base64-decodes, and the decoded length is at least
`config.cookie_len` (a minimum-length check); in particular a stored secret
of exactly `cookie_len` bytes is accepted and one a byte shorter is
rejected. -/
theorem session_secret_acceptance (config : CsrfConfig) (jar : CookieJar)
    (raw : List Nat) :
    (valid_csrf_token_from_session config jar = some raw ↔
      ∃ v, jar config.cookie_name = some v ∧ b64decodeStr v = some raw ∧
        config.cookie_len ≤ raw.length) ∧
    (∀ bytes : List Nat, (∀ b ∈ bytes, b < 256) → bytes.length = config.cookie_len →
      valid_csrf_token_from_session config
        (singletonJar config.cookie_name (b64encodeStr bytes)) = some bytes) ∧
    (∀ bytes : List Nat, (∀ b ∈ bytes, b < 256) → bytes.length + 1 = config.cookie_len →
      valid_csrf_token_from_session config
        (singletonJar config.cookie_name (b64encodeStr bytes)) = none) := by
  refine ⟨?_, fun bytes hb hl => ?_, fun bytes hb hl => ?_⟩
  · unfold valid_csrf_token_from_session csrf_token_from_session
    cases hj : jar config.cookie_name with
    | none => simp [hj]
    | some v =>
      cases hd : b64decodeStr v with
      | none => simp [hd]
      | some decoded =>
        by_cases hlen : config.cookie_len ≤ decoded.length
        · simp only [hd, if_pos hlen, Option.some.injEq]
          constructor
          · rintro rfl; exact ⟨v, rfl, hd, hlen⟩
          · rintro ⟨w, hw, hdw, _⟩
            cases hw
            rw [hd] at hdw
            cases hdw
            rfl
        · simp only [hd, if_neg hlen]
          constructor
          · intro hc; cases hc
          · rintro ⟨w, hw, hdw, hl⟩
            cases hw
            rw [hd] at hdw
            cases hdw
            exact absurd hl hlen
  · rw [valid_csrf_token_eq_bind, csrf_token_from_session_eq_bind]
    simp [singletonJar, b64decodeStr_encodeStr bytes hb, hl]
  · rw [valid_csrf_token_eq_bind, csrf_token_from_session_eq_bind]
    simp [singletonJar, b64decodeStr_encodeStr bytes hb]
    omega

/-- C2 witness: with a two-byte minimum, the two-byte secret `[0, 0]`
(`AAA=`) is accepted and the one-byte secret `[0]` (`AA==`) is rejected. -/
theorem session_secret_acceptance_witness :
    valid_csrf_token_from_session (CsrfConfig.mk none "csrf_token" 2)
      (singletonJar "csrf_token" (b64encodeStr [0, 0])) = some [0, 0] ∧
    valid_csrf_token_from_session (CsrfConfig.mk none "csrf_token" 2)
      (singletonJar "csrf_token" (b64encodeStr [0])) = none :=
  ⟨(session_secret_acceptance (CsrfConfig.mk none "csrf_token" 2)
      (singletonJar "csrf_token" (b64encodeStr [0, 0])) []).2.1 [0, 0] (by decide) rfl,
   (session_secret_acceptance (CsrfConfig.mk none "csrf_token" 2)
      (singletonJar "csrf_token" (b64encodeStr [0])) []).2.2 [0] (by decide) rfl⟩

/-! ## Claim C3 -/

/-- C3: when a `CsrfConfig` is present and the request carries no valid
session secret, `on_request` adds exactly one private cookie named
`config.cookie_name` with path `/`, whose value is the standard base64
encoding of `config.cookie_len` freshly sampled bytes; for any
`cookie_len ≥ 1` the value decodes back to exactly `cookie_len` bytes. -/
theorem fairing_mints_full_length_cookie (config : CsrfConfig) (jar : CookieJar)
    (rng : Nat → Nat) (now : Int) (hlen : 1 ≤ config.cookie_len)
    (hno : valid_csrf_token_from_session config jar = none) :
    ∃ values : List Nat,
      (fairing_on_request (some config) jar rng now).cookiesAdded =
        [{ name := config.cookie_name, value := b64encodeStr values, path := "/",
           expires := match config.lifespan with
             | some d => some (now + d)
             | none => none }] ∧
      b64decodeStr (b64encodeStr values) = some values ∧
      values.length = config.cookie_len := by
  refine ⟨(List.range config.cookie_len).map (fun i => rng i % 256), ?_, ?_, ?_⟩
  · simp only [fairing_on_request, hno, Option.isSome_none, Bool.false_eq_true, if_false]
  · exact b64decodeStr_encodeStr _ (by
      intro b hb
      simp only [List.mem_map] at hb
      obtain ⟨i, _, hi⟩ := hb
      omega)
  · simp

/-- C3 witness: a one-byte config with an empty jar mints a decodable
one-byte cookie. -/
theorem fairing_mints_full_length_cookie_witness :
    ∃ values : List Nat,
      (fairing_on_request (some cfg1) emptyJar (fun _ => 65) 0).cookiesAdded =
        [{ name := cfg1.cookie_name, value := b64encodeStr values, path := "/",
           expires := match cfg1.lifespan with
             | some d => some ((0 : Int) + d)
             | none => none }] ∧
      b64decodeStr (b64encodeStr values) = some values ∧
      values.length = cfg1.cookie_len :=
  fairing_mints_full_length_cookie cfg1 emptyJar (fun _ => 65) 0 (by decide) (by decide)

/-! ## Claim C4 -/

/-- C4: a request that already carries a valid session secret leaves
`on_request` without any cookie being added. -/
theorem fairing_no_overwrite (config : CsrfConfig) (jar : CookieJar)
    (rng : Nat → Nat) (now : Int) (raw : List Nat)
    (hvalid : valid_csrf_token_from_session config jar = some raw) :
    (fairing_on_request (some config) jar rng now).cookiesAdded = [] := by
  simp [fairing_on_request, hvalid]

/-- C4 witness: the valid one-byte secret in `jar1` suppresses minting. -/
theorem fairing_no_overwrite_witness :
    (fairing_on_request (some cfg1) jar1 (fun _ => 65) 0).cookiesAdded = [] :=
  fairing_no_overwrite cfg1 jar1 (fun _ => 65) 0 [0] (by decide)

/-! ## Claim C7 -/

/-- C7: a minted cookie carries no expiration when `config.lifespan` is
`None` (a session cookie), and expiration `now + d` when the lifespan is
`Some d`. -/
theorem minted_cookie_expiration (config : CsrfConfig) (jar : CookieJar)
    (rng : Nat → Nat) (now : Int)
    (hno : valid_csrf_token_from_session config jar = none) :
    (config.lifespan = none →
      ∃ c, (fairing_on_request (some config) jar rng now).cookiesAdded = [c] ∧
        c.expires = none) ∧
    (∀ d, config.lifespan = some d →
      ∃ c, (fairing_on_request (some config) jar rng now).cookiesAdded = [c] ∧
        c.expires = some (now + d)) := by
  have hstep : (fairing_on_request (some config) jar rng now).cookiesAdded =
      [{ name := config.cookie_name,
         value := b64encodeStr ((List.range config.cookie_len).map (fun i => rng i % 256)),
         path := "/",
         expires := match config.lifespan with
           | some d => some (now + d)
           | none => none }] := by
    simp only [fairing_on_request, hno, Option.isSome_none, Bool.false_eq_true, if_false]
  constructor
  · intro hl
    refine ⟨_, hstep, ?_⟩
    simp [hl]
  · intro d hl
    refine ⟨_, hstep, ?_⟩
    simp [hl]

/-- C7 witness: with a one-day lifespan and an empty jar, the minted cookie
expires at issue time plus one day. -/
theorem minted_cookie_expiration_witness :
    ∃ c, (fairing_on_request (some CsrfConfig.default) emptyJar
        (fun _ => 65) 1000).cookiesAdded = [c] ∧
      c.expires = some ((1000 : Int) + 86400) :=
  (minted_cookie_expiration CsrfConfig.default emptyJar (fun _ => 65) 1000
    (by decide)).2 86400 rfl

/-! ## Claim C9 -/

/-- C9: with no `CsrfConfig` in managed state, `Fairing::on_request` only
logs the missing configuration and adds no cookie; the hook returns normally
(it has no channel to fail the request), so the request proceeds. -/
theorem fairing_missing_config_soft (jar : CookieJar) (rng : Nat → Nat) (now : Int) :
    fairing_on_request none jar rng now =
      { cookiesAdded := [], logs := ["CSRF config is missing"] } := rfl

/-! ## Claim C5 -/

/-- C5: with a `CsrfConfig` registered, the `CsrfToken` request guard
succeeds with the base64-encoded session secret exactly when a valid secret
of sufficient length is in the session cookie, and otherwise fails with
`Status::Forbidden` — never by forwarding. -/
theorem guard_outcome (config : CsrfConfig) (jar : CookieJar) :
    (∀ raw, valid_csrf_token_from_session config jar = some raw →
      from_request (some config) jar = some (.success { token := b64encodeStr raw })) ∧
    (valid_csrf_token_from_session config jar = none →
      from_request (some config) jar = some (.error STATUS_FORBIDDEN)) ∧
    ((∃ t, from_request (some config) jar = some (.success t)) ↔
      (valid_csrf_token_from_session config jar).isSome) ∧
    from_request (some config) jar ≠ some .forward := by
  cases hv : valid_csrf_token_from_session config jar with
  | none =>
    refine ⟨?_, ?_, ?_, ?_⟩
    · intro raw hr; cases hr
    · intro _; simp [from_request, hv]
    · simp [from_request, hv]
    · simp [from_request, hv]
  | some raw =>
    refine ⟨?_, ?_, ?_, ?_⟩
    · intro raw2 hr; cases hr; simp [from_request, hv]
    · intro hr; cases hr
    · simp [from_request, hv]
    · simp [from_request, hv]

/-- C5 witness: `jar1` holds a valid secret so the guard succeeds with its
encoding, whereas an empty jar yields `Forbidden`. -/
theorem guard_outcome_witness :
    from_request (some cfg1) jar1 = some (.success { token := b64encodeStr [0] }) ∧
    from_request (some cfg1) emptyJar = some (.error STATUS_FORBIDDEN) :=
  ⟨(guard_outcome cfg1 jar1).1 [0] (by decide),
   (guard_outcome cfg1 emptyJar).2.1 (by decide)⟩

/-! ## Claim C10 -/

/-- C10: `from_request` unwraps the managed-state lookup, so with no
`CsrfConfig` registered it panics — the embedding's `none` — and in
particular never produces the `Forbidden` outcome, for every jar. -/
theorem guard_panics_without_config (jar : CookieJar) :
    from_request none jar = none ∧
    ∀ o : GuardOutcome, from_request none jar ≠ some o := by
  exact ⟨rfl, fun o hc => by cases hc⟩

/-! ## Claim C8 -/

/-- C8 counterexample: a request whose session secret (as the guard encodes
it) is `AA==`, carrying header value `h:` — the toy-bcrypt hash of the empty
string.  The header-verification fairing, invoked by `Fairing::on_request`
with the stored token `CsrfToken("")`, caches a token even though the bcrypt
primitive does not validate the header against the session secret `AA==`:
the comparison the claim describes is not the one the code performs. -/
theorem header_fairing_counterexample :
    from_request (some cfg1) jar1 = some (.success { token := "AA==" }) ∧
    ¬ ((csrfToken_fairing_on_request toyBcrypt { token := "" } (some "h:")
          (some cfg1) none).cached.isSome = true →
        toyBcrypt.verify "AA==" "h:" = .ok true) := by
  constructor
  · decide
  · intro hc
    have := hc (by decide)
    cases this

/-- C8 amended: with a config present and a header supplied, the
header-verification fairing compares the header against its own stored token
`self.0` (the empty string in the wiring installed by `Fairing::on_request`),
caching `CsrfToken(header)` on success if nothing is cached yet; missing
header, missing config and verification failure leave the cache unchanged
and only log, and no path sets a response status (no 403). -/
theorem header_fairing_behavior (B : BcryptModel) (t : CsrfToken)
    (header : Option String) (configState : Option CsrfConfig)
    (cache : Option CsrfToken) :
    (csrfToken_fairing_on_request B t header configState cache).statusSet = none ∧
    (header = none →
      (csrfToken_fairing_on_request B t header configState cache).cached = cache) ∧
    (configState = none →
      (csrfToken_fairing_on_request B t header configState cache).cached = cache) ∧
    (∀ h cfg, header = some h → configState = some cfg →
      (csrfToken_fairing_on_request B t header configState cache).cached =
        (if unwrapOr (B.verify t.token h) false then some (cache.getD { token := h })
         else cache)) := by
  unfold csrfToken_fairing_on_request CsrfToken.verify
  cases configState with
  | none =>
    refine ⟨?_, ?_, ?_, ?_⟩
    · rfl
    · intro _; rfl
    · intro _; rfl
    · intro h cfg _ hc; cases hc
  | some cfg0 =>
    cases header with
    | none =>
      refine ⟨?_, ?_, ?_, ?_⟩
      · rfl
      · intro _; rfl
      · intro hc; cases hc
      · intro h cfg hc; cases hc
    | some h =>
      refine ⟨?_, ?_, ?_, ?_⟩
      · by_cases hv : unwrapOr (B.verify t.token h) false = true
        · simp [hv]
        · simp [hv]
      · intro hc; cases hc
      · intro hc; cases hc
      · intro h2 cfg hh _
        cases hh
        by_cases hv : unwrapOr (B.verify t.token h) false = true
        · simp [hv]
        · simp [hv]

/-- C8 amended witness: with no header the cache is untouched and no status
is set; with the header `h:` and stored token `""` the toy model caches the
header token. -/
theorem header_fairing_behavior_witness :
    (csrfToken_fairing_on_request toyBcrypt { token := "" } none (some cfg1)
        none).statusSet = none ∧
    (csrfToken_fairing_on_request toyBcrypt { token := "" } none (some cfg1)
        none).cached = none ∧
    (csrfToken_fairing_on_request toyBcrypt { token := "" } (some "h:") (some cfg1)
        none).cached =
      (if unwrapOr (toyBcrypt.verify "" "h:") false
       then some (Option.none.getD { token := "h:" }) else none) :=
  ⟨(header_fairing_behavior toyBcrypt { token := "" } none (some cfg1) none).1,
   (header_fairing_behavior toyBcrypt { token := "" } none (some cfg1) none).2.1 rfl,
   (header_fairing_behavior toyBcrypt { token := "" } (some "h:") (some cfg1)
      none).2.2.2 "h:" cfg1 rfl rfl⟩

end RocketCsrf
